import Mathlib

/-!
Verification development for the job-analytics dashboard.

The core of the repository is a client-side aggregation hook (`useJobAnalytics`)
that fetches nine report endpoints in parallel, normalizes heterogeneous
JSON shapes (including timeline fields that may arrive as JSON-encoded
strings), merges them into one `JobAnalyticsData` record with per-field
defaults, plus a handful of pure descriptive-statistics helpers and a
cached mock-mode resolver.

This file shallowly embeds that logic:
  * `Json` is a model of runtime JSON values; `parseJson` models the
    ECMAScript `JSON.parse` builtin (fuel-based, total).
  * `jsGet` / `jsIndexZero` / `jsCoalesce` model the JavaScript idioms
    `x?.k`, `x?.[0]` and `x ?? d` used by the hook.
  * `combined`, `mergeResponses`, `loadUpdates`, `runLoad` embed the
    `load` callback of `useJobAnalytics` (hooks/use-job-analytics, the
    file appearing as src/unnamed/part_000).
  * `calculateMode`, `calculateMedian` embed the statistics helpers of
    the score-distribution components (src/unnamed/part_002, part_003);
    `calculateScoreSummary` embeds the summary helper of
    `JobAnalyticsPage` (lib/api.ts concatenation, lines 257-281).
  * `resolveMockFlag` and friends embed the cached mock-flag resolver of
    lib/api.ts.
-/

/-- Model of a runtime JSON value (the result of `JSON.parse` or of a
`resp.json()` body).  Numbers are modelled as rationals. -/
inductive Json : Type where
  | null : Json
  | bool (b : Bool) : Json
  | num (q : ℚ) : Json
  | str (s : String) : Json
  | arr (elems : List Json) : Json
  | obj (fields : List (String × Json)) : Json

mutual

/-- Decidable equality for `Json` (hand-rolled: the deriving handler does
not support this nested inductive). -/
def Json.decEq : (a b : Json) → Decidable (a = b)
  | .null, .null => isTrue rfl
  | .bool a, .bool b =>
    if h : a = b then isTrue (by rw [h]) else isFalse (fun hh => by cases hh; exact h rfl)
  | .num a, .num b =>
    if h : a = b then isTrue (by rw [h]) else isFalse (fun hh => by cases hh; exact h rfl)
  | .str a, .str b =>
    if h : a = b then isTrue (by rw [h]) else isFalse (fun hh => by cases hh; exact h rfl)
  | .arr xs, .arr ys =>
    match Json.decEqList xs ys with
    | isTrue h => isTrue (by rw [h])
    | isFalse h => isFalse (fun hh => by cases hh; exact h rfl)
  | .obj xs, .obj ys =>
    match Json.decEqFields xs ys with
    | isTrue h => isTrue (by rw [h])
    | isFalse h => isFalse (fun hh => by cases hh; exact h rfl)
  | .null, .bool _ => isFalse (fun h => nomatch h)
  | .null, .num _ => isFalse (fun h => nomatch h)
  | .null, .str _ => isFalse (fun h => nomatch h)
  | .null, .arr _ => isFalse (fun h => nomatch h)
  | .null, .obj _ => isFalse (fun h => nomatch h)
  | .bool _, .null => isFalse (fun h => nomatch h)
  | .bool _, .num _ => isFalse (fun h => nomatch h)
  | .bool _, .str _ => isFalse (fun h => nomatch h)
  | .bool _, .arr _ => isFalse (fun h => nomatch h)
  | .bool _, .obj _ => isFalse (fun h => nomatch h)
  | .num _, .null => isFalse (fun h => nomatch h)
  | .num _, .bool _ => isFalse (fun h => nomatch h)
  | .num _, .str _ => isFalse (fun h => nomatch h)
  | .num _, .arr _ => isFalse (fun h => nomatch h)
  | .num _, .obj _ => isFalse (fun h => nomatch h)
  | .str _, .null => isFalse (fun h => nomatch h)
  | .str _, .bool _ => isFalse (fun h => nomatch h)
  | .str _, .num _ => isFalse (fun h => nomatch h)
  | .str _, .arr _ => isFalse (fun h => nomatch h)
  | .str _, .obj _ => isFalse (fun h => nomatch h)
  | .arr _, .null => isFalse (fun h => nomatch h)
  | .arr _, .bool _ => isFalse (fun h => nomatch h)
  | .arr _, .num _ => isFalse (fun h => nomatch h)
  | .arr _, .str _ => isFalse (fun h => nomatch h)
  | .arr _, .obj _ => isFalse (fun h => nomatch h)
  | .obj _, .null => isFalse (fun h => nomatch h)
  | .obj _, .bool _ => isFalse (fun h => nomatch h)
  | .obj _, .num _ => isFalse (fun h => nomatch h)
  | .obj _, .str _ => isFalse (fun h => nomatch h)
  | .obj _, .arr _ => isFalse (fun h => nomatch h)

/-- Decidable equality for lists of `Json`. -/
def Json.decEqList : (xs ys : List Json) → Decidable (xs = ys)
  | [], [] => isTrue rfl
  | [], _ :: _ => isFalse (fun h => nomatch h)
  | _ :: _, [] => isFalse (fun h => nomatch h)
  | x :: xs, y :: ys =>
    match Json.decEq x y, Json.decEqList xs ys with
    | isTrue h1, isTrue h2 => isTrue (by rw [h1, h2])
    | isFalse h1, _ => isFalse (fun h => by cases h; exact h1 rfl)
    | _, isFalse h2 => isFalse (fun h => by cases h; exact h2 rfl)

/-- Decidable equality for JSON object member lists. -/
def Json.decEqFields : (xs ys : List (String × Json)) → Decidable (xs = ys)
  | [], [] => isTrue rfl
  | [], _ :: _ => isFalse (fun h => nomatch h)
  | _ :: _, [] => isFalse (fun h => nomatch h)
  | (k, v) :: xs, (l, w) :: ys =>
    match instDecidableEqString k l, Json.decEq v w, Json.decEqFields xs ys with
    | isTrue h1, isTrue h2, isTrue h3 => isTrue (by rw [h1, h2, h3])
    | isFalse h1, _, _ => isFalse (fun h => by cases h; exact h1 rfl)
    | _, isFalse h2, _ => isFalse (fun h => by cases h; exact h2 rfl)
    | _, _, isFalse h3 => isFalse (fun h => by cases h; exact h3 rfl)

end

instance : DecidableEq Json := Json.decEq

/-- JSON whitespace skipping (space, tab, newline, carriage return). -/
def skipWs : List Char → List Char
  | c :: cs => if c = ' ' ∨ c = '\t' ∨ c = '\n' ∨ c = '\r' then skipWs cs else c :: cs
  | [] => []

/-- Match a literal suffix such as `ull` after `n`, returning what follows. -/
def stripLit : List Char → List Char → Option (List Char)
  | [], cs => some cs
  | _ :: _, [] => none
  | l :: ls, c :: cs => if c = l then stripLit ls cs else none

/-- Accumulate a run of decimal digits into a natural number. -/
def digitsToNat (ds : List Char) : ℕ :=
  ds.foldl (fun acc c => acc * 10 + (c.toNat - 48)) 0

/-- Value of one hexadecimal digit, if the character is one. -/
def hexVal (c : Char) : Option ℕ :=
  if '0' ≤ c ∧ c ≤ '9' then some (c.toNat - 48)
  else if 'a' ≤ c ∧ c ≤ 'f' then some (c.toNat - 87)
  else if 'A' ≤ c ∧ c ≤ 'F' then some (c.toNat - 55)
  else none

/-- Parse the body of a JSON string (the opening quote already consumed),
handling the escape sequences of the JSON grammar and rejecting raw
control characters, as `JSON.parse` does. -/
def parseStrBody : List Char → List Char → Option (String × List Char)
  | acc, c :: rest =>
    if c = '\x22' then some (String.mk acc.reverse, rest)
    else if c = '\\' then
      match rest with
      | [] => none
      | e :: rest2 =>
        if e = '\x22' then parseStrBody ('\x22' :: acc) rest2
        else if e = '\\' then parseStrBody ('\\' :: acc) rest2
        else if e = '/' then parseStrBody ('/' :: acc) rest2
        else if e = 'b' then parseStrBody ('\x08' :: acc) rest2
        else if e = 'f' then parseStrBody ('\x0c' :: acc) rest2
        else if e = 'n' then parseStrBody ('\n' :: acc) rest2
        else if e = 'r' then parseStrBody ('\x0d' :: acc) rest2
        else if e = 't' then parseStrBody ('\t' :: acc) rest2
        else if e = 'u' then
          match rest2 with
          | h1 :: h2 :: h3 :: h4 :: rest3 =>
            match hexVal h1, hexVal h2, hexVal h3, hexVal h4 with
            | some a, some b, some c3, some d =>
              parseStrBody (Char.ofNat (((a * 16 + b) * 16 + c3) * 16 + d) :: acc) rest3
            | _, _, _, _ => none
          | _ => none
        else none
    else if c.toNat < 32 then none
    else parseStrBody (c :: acc) rest
  | _, [] => none

/-- The exact rational value of a parsed JSON numeral, from its sign, the
integer-and-fraction digits read as one natural number, the fraction
length, and the (signed) exponent: `sign * digits * 10 ^ (exp - fracLen)`.
Computed with `mkRat` so that it evaluates by kernel reduction. -/
def numValue (neg : Bool) (digits : List Char) (fracLen : ℕ) (e : ℤ) : ℚ :=
  let mant : ℤ := (digitsToNat digits : ℤ)
  let signedMant : ℤ := if neg then -mant else mant
  let etot : ℤ := e - (fracLen : ℤ)
  if 0 ≤ etot then mkRat (signedMant * ((10 ^ etot.toNat : ℕ) : ℤ)) 1
  else mkRat signedMant (10 ^ (-etot).toNat)

/-- Parse a JSON number per the JSON grammar: optional minus, integer part
(`0` or a nonzero-led digit run), optional fraction, optional exponent. -/
def parseNum (cs : List Char) : Option (ℚ × List Char) :=
  let (neg, cs1) : Bool × List Char :=
    match cs with
    | '-' :: rest => (true, rest)
    | _ => (false, cs)
  let intSpan := cs1.span (·.isDigit)
  match intSpan.1 with
  | [] => none
  | d :: ds =>
    if d = '0' ∧ ds ≠ [] then none
    else
      let (fracDigits, cs2) : List Char × List Char :=
        match intSpan.2 with
        | '.' :: afterDot =>
          let fracSpan := afterDot.span (·.isDigit)
          (fracSpan.1, fracSpan.2)
        | rest => ([], rest)
      let fracBad : Bool :=
        match intSpan.2 with
        | '.' :: afterDot => (afterDot.span (·.isDigit)).1.isEmpty
        | _ => false
      if fracBad then none
      else
        match cs2 with
        | e :: afterE =>
          if e = 'e' ∨ e = 'E' then
            let (eneg, cs3) : Bool × List Char :=
              match afterE with
              | '-' :: r => (true, r)
              | '+' :: r => (false, r)
              | _ => (false, afterE)
            let expSpan := cs3.span (·.isDigit)
            if expSpan.1.isEmpty then none
            else
              let ex : ℤ :=
                if eneg then -(digitsToNat expSpan.1 : ℤ) else (digitsToNat expSpan.1 : ℤ)
              some (numValue neg ((d :: ds) ++ fracDigits) fracDigits.length ex, expSpan.2)
          else some (numValue neg ((d :: ds) ++ fracDigits) fracDigits.length 0, cs2)
        | [] => some (numValue neg ((d :: ds) ++ fracDigits) fracDigits.length 0, [])

mutual

/-- Fuel-based parser for one JSON value; models the grammar of `JSON.parse`. -/
def parseVal : ℕ → List Char → Option (Json × List Char)
  | 0, _ => none
  | fuel + 1, cs =>
    match skipWs cs with
    | [] => none
    | c :: rest =>
      if c = 'n' then (stripLit ['u', 'l', 'l'] rest).map (fun r => (Json.null, r))
      else if c = 't' then (stripLit ['r', 'u', 'e'] rest).map (fun r => (Json.bool true, r))
      else if c = 'f' then (stripLit ['a', 'l', 's', 'e'] rest).map (fun r => (Json.bool false, r))
      else if c = '\x22' then (parseStrBody [] rest).map (fun p => (Json.str p.1, p.2))
      else if c = '[' then
        match skipWs rest with
        | ']' :: r2 => some (Json.arr [], r2)
        | cs2 => (parseArrItems fuel cs2).map (fun p => (Json.arr p.1, p.2))
      else if c = '\x7b' then
        match skipWs rest with
        | '\x7d' :: r2 => some (Json.obj [], r2)
        | cs2 => (parseObjItems fuel cs2).map (fun p => (Json.obj p.1, p.2))
      else if c = '-' ∨ c.isDigit then (parseNum (c :: rest)).map (fun p => (Json.num p.1, p.2))
      else none

/-- Parse the comma-separated items of a non-empty JSON array. -/
def parseArrItems : ℕ → List Char → Option (List Json × List Char)
  | 0, _ => none
  | fuel + 1, cs => do
    let (v, r) ← parseVal fuel cs
    match skipWs r with
    | ',' :: r2 => do
      let (vs, r3) ← parseArrItems fuel r2
      pure (v :: vs, r3)
    | ']' :: r2 => pure ([v], r2)
    | _ => none

/-- Parse the comma-separated members of a non-empty JSON object. -/
def parseObjItems : ℕ → List Char → Option (List (String × Json) × List Char)
  | 0, _ => none
  | fuel + 1, cs =>
    match skipWs cs with
    | '\x22' :: afterQuote => do
      let (key, r) ← parseStrBody [] afterQuote
      match skipWs r with
      | ':' :: r2 => do
        let (v, r3) ← parseVal fuel r2
        match skipWs r3 with
        | ',' :: r4 => do
          let (kvs, r5) ← parseObjItems fuel r4
          pure ((key, v) :: kvs, r5)
        | '\x7d' :: r4 => pure ([(key, v)], r4)
        | _ => none
      | _ => none
    | _ => none

end

/-- Model of `JSON.parse`: parse a whole string as one JSON value with
only whitespace around it; `none` models a thrown `SyntaxError`.  The
fuel `2 * length + 4` dominates the recursion depth, which consumes at
least one input character per two fuel decrements. -/
def parseJson (s : String) : Option Json :=
  match parseVal (2 * s.length + 4) s.data with
  | some (j, rest) => if skipWs rest = [] then some j else none
  | none => none

/-! ## JavaScript value idioms used by the hook -/

/-- Last-occurrence lookup in the member list of a JSON object: objects built
by `JSON.parse` keep the last duplicate key. -/
def lookupLast : List (String × Json) → String → Option Json
  | [], _ => none
  | (k, v) :: rest, key =>
    match lookupLast rest key with
    | some r => some r
    | none => if k = key then some v else none

/-- Property read `o?.k` (for the keys used by the hook, which are not
`length`-like array or string properties): an object yields its member,
anything else yields `undefined`, modelled as `none`. -/
def jsGet : Json → String → Option Json
  | .obj kvs, key => lookupLast kvs key
  | _, _ => none

/-- Element read `o?.[0]`: first array element; first character of a
string (as a one-character string); property `"0"` of an object; and
`undefined` (`none`) otherwise. -/
def jsIndexZero : Json → Option Json
  | .arr (x :: _) => some x
  | .arr [] => none
  | .str s =>
    match s.data with
    | c :: _ => some (Json.str (String.mk [c]))
    | [] => none
  | .obj kvs => lookupLast kvs "0"
  | _ => none

/-- Optional chaining `x?.…`: `null` and `undefined` short-circuit to
`undefined`, otherwise the accessor is applied. -/
def optChain : Option Json → (Json → Option Json) → Option Json
  | some Json.null, _ => none
  | some j, f => f j
  | none, _ => none

/-- Nullish coalescing `x ?? d`: `null` and `undefined` fall back to `d`,
every other value (including `0`, `""` and `false`) passes through. -/
def jsCoalesce : Option Json → Json → Json
  | some Json.null, d => d
  | some j, _ => j
  | none, d => d

/-- Truthiness of the optional `jobId` argument: `!jobId` is true exactly
for an absent id or the empty string. -/
def jsTruthy : Option String → Bool
  | none => false
  | some s => s != ""

/-! ## Data model of the aggregator (hooks/use-job-analytics) -/

/-- The merged analytics record.  Field types in the source are
TypeScript annotations on unvalidated casts, so each field is modelled by
the runtime JSON value it actually holds. -/
structure JobAnalyticsData where
  avg_interview_rating : Json
  total_interviews : Json
  rated_interviews : Json
  avg_duration_minutes : Json
  completed_interviews : Json
  total_applications : Json
  applied_count : Json
  resume_received_count : Json
  interviewing_count : Json
  application_done_count : Json
  applied_to_resume_rate : Json
  resume_to_interview_rate : Json
  interview_to_done_rate : Json
  overall_conversion_rate : Json
  total_proctored_interviews : Json
  interviews_with_concerns : Json
  total_critical_events : Json
  avg_critical_events_per_interview : Json
  percentage_interviews_with_concerns : Json
  score_distribution : Json
  interview_date_distribution : Json
  interview_time_distribution : Json
  total_hires : Json
  avg_days_to_hire : Json
  median_days_to_hire : Json
  completion_rate : Json
  abandonment_rate : Json
deriving DecidableEq

/-- Constant `emptyAnalytics()` from the hook: every field initialized to its safe
default (0 for counts and rates, null for unmeasurable averages, empty
array for distributions). -/
def emptyAnalytics : JobAnalyticsData where
  avg_interview_rating := Json.null
  total_interviews := Json.num 0
  rated_interviews := Json.num 0
  avg_duration_minutes := Json.null
  completed_interviews := Json.num 0
  total_applications := Json.num 0
  applied_count := Json.num 0
  resume_received_count := Json.num 0
  interviewing_count := Json.num 0
  application_done_count := Json.num 0
  applied_to_resume_rate := Json.num 0
  resume_to_interview_rate := Json.num 0
  interview_to_done_rate := Json.num 0
  overall_conversion_rate := Json.num 0
  total_proctored_interviews := Json.num 0
  interviews_with_concerns := Json.num 0
  total_critical_events := Json.num 0
  avg_critical_events_per_interview := Json.num 0
  percentage_interviews_with_concerns := Json.num 0
  score_distribution := Json.arr []
  interview_date_distribution := Json.arr []
  interview_time_distribution := Json.arr []
  total_hires := Json.num 0
  avg_days_to_hire := Json.null
  median_days_to_hire := Json.null
  completion_rate := Json.num 0
  abandonment_rate := Json.num 0

/-- State type of the hook. `proctoringEvents` and `sectionPerformance` hold
whatever `resp?.data ?? []` produced (the `as …[]` casts do not
validate), so they are modelled as raw JSON values. The error is kept as
its message string. -/
structure State where
  analytics : Option JobAnalyticsData
  proctoringEvents : Json
  sectionPerformance : Json
  isLoading : Bool
  hasError : Bool
  analyticsError : Option String
deriving DecidableEq

/-- Initializer of the `useState` call in the hook: loading starts true only when a
truthy job id was supplied. -/
def initialState (jobId : Option String) : State where
  analytics := none
  proctoringEvents := Json.arr []
  sectionPerformance := Json.arr []
  isLoading := jsTruthy jobId
  hasError := false
  analyticsError := none

/-! ## Mock fixtures (lib/dummy-data.ts) -/

/-- A score-distribution bucket as a JSON object. -/
def scoreBucketJson (label : String) (count pct avg : ℚ) : Json :=
  Json.obj [("rating_bucket", Json.str label), ("candidate_count", Json.num count),
            ("percentage", Json.num pct), ("avg_rating_in_bucket", Json.num avg)]

/-- A date-distribution point as a JSON object. -/
def datePointJson (d : String) (c : ℚ) : Json :=
  Json.obj [("date", Json.str d), ("candidate_count", Json.num c)]

/-- An hour-distribution point as a JSON object. -/
def timePointJson (h c : ℚ) : Json :=
  Json.obj [("hour", Json.num h), ("candidate_count", Json.num c)]

/-- Fixture `dummyAnalytics` from lib/dummy-data.ts.  The computed rates are the
values of the arithmetic in the source: `Math.round((92/128)*100) = 72`,
`Math.round((34/92)*100) = 37`, `Math.round((18/34)*100) = 53`,
`Math.round((18/128)*100) = 14`, `Number((13/40).toFixed(2)) = 0.33`,
`Math.round((7/40)*100) = 18`. -/
def dummyAnalytics : JobAnalyticsData where
  avg_interview_rating := Json.num (mkRat 21 5)
  total_interviews := Json.num 58
  rated_interviews := Json.num 51
  avg_duration_minutes := Json.num 47
  completed_interviews := Json.num 49
  total_applications := Json.num 128
  applied_count := Json.num 128
  resume_received_count := Json.num 92
  interviewing_count := Json.num 34
  application_done_count := Json.num 18
  applied_to_resume_rate := Json.num 72
  resume_to_interview_rate := Json.num 37
  interview_to_done_rate := Json.num 53
  overall_conversion_rate := Json.num 14
  total_proctored_interviews := Json.num 40
  interviews_with_concerns := Json.num 7
  total_critical_events := Json.num 13
  avg_critical_events_per_interview := Json.num (mkRat 33 100)
  percentage_interviews_with_concerns := Json.num 18
  score_distribution := Json.arr
    [scoreBucketJson "0.25" 3 3 (mkRat 1 4), scoreBucketJson "0.5" 8 8 (mkRat 1 2),
     scoreBucketJson "0.75" 1 1 (mkRat 3 4), scoreBucketJson "1.0" 8 8 1,
     scoreBucketJson "1.25" 7 7 (mkRat 5 4), scoreBucketJson "1.5" 4 4 (mkRat 3 2),
     scoreBucketJson "1.75" 2 2 (mkRat 7 4), scoreBucketJson "2.0" 9 9 2,
     scoreBucketJson "2.25" 6 6 (mkRat 9 4), scoreBucketJson "2.5" 3 3 (mkRat 5 2),
     scoreBucketJson "2.75" 4 4 (mkRat 11 4), scoreBucketJson "3.0" 4 4 3,
     scoreBucketJson "3.25" 5 5 (mkRat 13 4), scoreBucketJson "3.5" 3 3 (mkRat 7 2),
     scoreBucketJson "3.75" 5 5 (mkRat 15 4), scoreBucketJson "4.0" 6 6 4,
     scoreBucketJson "4.25" 2 2 (mkRat 17 4), scoreBucketJson "4.5" 4 4 (mkRat 9 2),
     scoreBucketJson "4.75" 8 8 (mkRat 19 4), scoreBucketJson "5.0" 5 5 5]
  interview_date_distribution := Json.arr
    [datePointJson "2025-08-01" 6, datePointJson "2025-08-02" 9, datePointJson "2025-08-03" 3,
     datePointJson "2025-08-04" 12, datePointJson "2025-08-05" 7]
  interview_time_distribution := Json.arr
    [timePointJson 9 6, timePointJson 10 10, timePointJson 11 8,
     timePointJson 14 11, timePointJson 16 5]
  total_hires := Json.num 3
  avg_days_to_hire := Json.num 19
  median_days_to_hire := Json.num 17
  completion_rate := Json.num 82
  abandonment_rate := Json.num 18

/-- Fixture `dummyProctoringEvents` from lib/dummy-data.ts. -/
def dummyProctoringEvents : Json :=
  Json.arr
    [Json.obj [("event_type", Json.str "TAB_SWITCH"), ("event_count", Json.num 12),
               ("interviews_affected", Json.num 7), ("avg_time_in_interview_minutes", Json.num 2)],
     Json.obj [("event_type", Json.str "FACE_NOT_DETECTED"), ("event_count", Json.num 5),
               ("interviews_affected", Json.num 4), ("avg_time_in_interview_minutes", Json.num 1)],
     Json.obj [("event_type", Json.str "MULTIPLE_FACES"), ("event_count", Json.num 4),
               ("interviews_affected", Json.num 2), ("avg_time_in_interview_minutes", Json.num 3)]]

/-- Fixture `dummySectionPerformance` from lib/dummy-data.ts. -/
def dummySectionPerformance : Json :=
  Json.arr
    [Json.obj [("section_type", Json.str "MCQ"), ("section_key", Json.str "technical_mcq"),
               ("total_sections", Json.num 120), ("evaluated_sections", Json.num 118),
               ("avg_section_rating", Json.num (mkRat 18 5)), ("avg_duration_minutes", Json.num 18)],
     Json.obj [("section_type", Json.str "CODING"), ("section_key", Json.str "coding_round"),
               ("total_sections", Json.num 82), ("evaluated_sections", Json.num 80),
               ("avg_section_rating", Json.num (mkRat 33 10)), ("avg_duration_minutes", Json.num 42)],
     Json.obj [("section_type", Json.str "SYSTEM_DESIGN"), ("section_key", Json.str "system_design"),
               ("total_sections", Json.num 54), ("evaluated_sections", Json.num 52),
               ("avg_section_rating", Json.num (mkRat 31 10)), ("avg_duration_minutes", Json.num 50)],
     Json.obj [("section_type", Json.str "BEHAVIORAL"), ("section_key", Json.str "behavioral"),
               ("total_sections", Json.num 96), ("evaluated_sections", Json.num 94),
               ("avg_section_rating", Json.num 4), ("avg_duration_minutes", Json.num 25)]]

/-! ## The load cycle (the `load` callback of the hook) -/

/-- Row extraction `resp?.data?.[0] ?? \x7b\x7d` used for the six
single-row report endpoints and the timeline endpoint. -/
def dataRow (resp : Json) : Json :=
  jsCoalesce (optChain (jsGet resp "data") jsIndexZero) (Json.obj [])

/-- List extraction `resp?.data ?? []` used for score-distribution,
proctoring-events and section-performance. -/
def dataField (resp : Json) : Json :=
  jsCoalesce (jsGet resp "data") (Json.arr [])

/-- Function `parseMaybeJson` from the hook: a string value is decoded with `JSON.parse`
(fallback on a parse error), an array passes through unchanged, anything
else falls back. -/
def parseMaybeJson (val : Json) (fallback : Json) : Json :=
  match val with
  | .str s =>
    match parseJson s with
    | some parsed => parsed
    | none => fallback
  | .arr xs => Json.arr xs
  | _ => fallback

/-- The `combined` record literal of the hook: every field of
`emptyAnalytics()` is overridden with `row.field ?? default`. -/
def combined (im ac pm sdArr tth ic dateDist timeDist : Json) : JobAnalyticsData where
  avg_interview_rating := jsCoalesce (jsGet im "avg_interview_rating") Json.null
  total_interviews := jsCoalesce (jsGet im "total_interviews") (Json.num 0)
  rated_interviews := jsCoalesce (jsGet im "rated_interviews") (Json.num 0)
  avg_duration_minutes := jsCoalesce (jsGet im "avg_duration_minutes") Json.null
  completed_interviews := jsCoalesce (jsGet im "completed_interviews") (Json.num 0)
  total_applications := jsCoalesce (jsGet ac "total_applications") (Json.num 0)
  applied_count := jsCoalesce (jsGet ac "applied_count") (Json.num 0)
  resume_received_count := jsCoalesce (jsGet ac "resume_received_count") (Json.num 0)
  interviewing_count := jsCoalesce (jsGet ac "interviewing_count") (Json.num 0)
  application_done_count := jsCoalesce (jsGet ac "application_done_count") (Json.num 0)
  applied_to_resume_rate := jsCoalesce (jsGet ac "applied_to_resume_rate") (Json.num 0)
  resume_to_interview_rate := jsCoalesce (jsGet ac "resume_to_interview_rate") (Json.num 0)
  interview_to_done_rate := jsCoalesce (jsGet ac "interview_to_done_rate") (Json.num 0)
  overall_conversion_rate := jsCoalesce (jsGet ac "overall_conversion_rate") (Json.num 0)
  total_proctored_interviews := jsCoalesce (jsGet pm "total_proctored_interviews") (Json.num 0)
  interviews_with_concerns := jsCoalesce (jsGet pm "interviews_with_concerns") (Json.num 0)
  total_critical_events := jsCoalesce (jsGet pm "total_critical_events") (Json.num 0)
  avg_critical_events_per_interview :=
    jsCoalesce (jsGet pm "avg_critical_events_per_interview") (Json.num 0)
  percentage_interviews_with_concerns :=
    jsCoalesce (jsGet pm "percentage_interviews_with_concerns") (Json.num 0)
  score_distribution := jsCoalesce (some sdArr) (Json.arr [])
  interview_date_distribution := jsCoalesce (some dateDist) (Json.arr [])
  interview_time_distribution := jsCoalesce (some timeDist) (Json.arr [])
  total_hires := jsCoalesce (jsGet tth "total_hires") (Json.num 0)
  avg_days_to_hire := jsCoalesce (jsGet tth "avg_days_to_hire") Json.null
  median_days_to_hire := jsCoalesce (jsGet tth "median_days_to_hire") Json.null
  completion_rate := jsCoalesce (jsGet ic "completion_rate") (Json.num 0)
  abandonment_rate := jsCoalesce (jsGet ic "abandonment_rate") (Json.num 0)

/-- The extraction-and-merge phase of a successful real-mode load, from
the nine response bodies in the order the hook destructures them:
0 interview-metrics, 1 application-conversion, 2 proctoring-metrics,
3 score-distribution, 4 time-to-hire, 5 interview-completion,
6 interview-timeline, 7 proctoring-events, 8 section-performance. -/
def mergeResponses (r : Fin 9 → Json) : JobAnalyticsData × Json × Json :=
  let im := dataRow (r 0)
  let ac := dataRow (r 1)
  let pm := dataRow (r 2)
  let sdArr := dataField (r 3)
  let tth := dataRow (r 4)
  let ic := dataRow (r 5)
  let tl := dataRow (r 6)
  let dateDistRaw := jsCoalesce (jsGet tl "interview_date_distribution") (Json.arr [])
  let timeDistRaw := jsCoalesce (jsGet tl "interview_time_distribution") (Json.arr [])
  let dateDist := parseMaybeJson dateDistRaw (Json.arr [])
  let timeDist := parseMaybeJson timeDistRaw (Json.arr [])
  let proctoringEvents := dataField (r 7)
  let sectionPerformance := dataField (r 8)
  (combined im ac pm sdArr tth ic dateDist timeDist, proctoringEvents, sectionPerformance)

/-- Outcome of one of the nine `fetchWithCsrf` report calls: a resolved
JSON body, or a rejection carrying the message of the thrown error (network
error, non-2xx body text / status message, or non-JSON response). -/
inductive ApiResult where
  | ok (body : Json) : ApiResult
  | err (msg : String) : ApiResult
deriving DecidableEq

/-- The rejection `Promise.all` propagates.  `Promise.all` rejects with
the first rejection to settle; this embedding determinizes that choice to
the least failing position, which coincides with the unique failing
error of the unique failing call in the single-failure scenarios of interest. -/
def firstFailure (responses : Fin 9 → ApiResult) : Option String :=
  (List.finRange 9).findSome? fun i =>
    match responses i with
    | .err e => some e
    | .ok _ => none

/-- Body of a successful call (only consulted when no call failed). -/
def okBody : ApiResult → Json
  | .ok b => b
  | .err _ => Json.null

/-- The five `setState` updaters the `load` callback and its early-return
path can enqueue, each mirroring one updater lambda of the hook. -/
inductive Update where
  | clearNoJob : Update
  | startLoading : Update
  | mockSuccess : Update
  | success (a : JobAnalyticsData) (pe se : Json) : Update
  | failure (e : String) : Update
deriving DecidableEq

/-- Application of one `setState` updater to the current state.  Note
that no updater consults which load cycle produced it: the hook has no
generation counter or abandonment flag. -/
def applyUpdate (s : State) : Update → State
  | .clearNoJob => { s with analytics := none, isLoading := false }
  | .startLoading => { s with isLoading := true, hasError := false, analyticsError := none }
  | .mockSuccess =>
    { s with analytics := some dummyAnalytics, proctoringEvents := dummyProctoringEvents,
             sectionPerformance := dummySectionPerformance, isLoading := false,
             hasError := false, analyticsError := none }
  | .success a pe se =>
    { s with analytics := some a, proctoringEvents := pe, sectionPerformance := se,
             isLoading := false, hasError := false, analyticsError := none }
  | .failure e =>
    { s with analytics := none, proctoringEvents := Json.arr [],
             sectionPerformance := Json.arr [], isLoading := false, hasError := true,
             analyticsError := some e }

/-- React applies queued `setState` updaters in order. -/
def runUpdates (s0 : State) (us : List Update) : State :=
  us.foldl applyUpdate s0

/-- Network activity of one load cycle: whether `resolveMockFlag` was
invoked and how many of the nine report fetches were issued. -/
structure LoadLog where
  mockResolveCalled : Bool
  reportFetches : ℕ
deriving DecidableEq

/-- The sequence of state updates one `load()` invocation performs,
together with its network activity, as a function of the captured job
id, the resolved mock flag (`mock || getIsMockApi()`), and the outcome
of each of the nine report calls. -/
def loadUpdates (jobId : Option String) (mockFlag : Bool) (responses : Fin 9 → ApiResult) :
    List Update × LoadLog :=
  if !(jsTruthy jobId) then ([Update.clearNoJob], ⟨false, 0⟩)
  else if mockFlag then ([Update.startLoading, Update.mockSuccess], ⟨true, 0⟩)
  else
    match firstFailure responses with
    | some e => ([Update.startLoading, Update.failure e], ⟨true, 9⟩)
    | none =>
      let merged := mergeResponses (fun i => okBody (responses i))
      ([Update.startLoading, Update.success merged.1 merged.2.1 merged.2.2], ⟨true, 9⟩)

/-- One complete, uninterleaved `load()` cycle from state `s0`. -/
def runLoad (jobId : Option String) (mockFlag : Bool) (responses : Fin 9 → ApiResult)
    (s0 : State) : State × LoadLog :=
  (runUpdates s0 (loadUpdates jobId mockFlag responses).1,
   (loadUpdates jobId mockFlag responses).2)

/-! ## Mock-flag resolution (lib/api.ts) -/

/-- ASCII lowercasing of a string, character by character (the structural
counterpart of `toLowerCase()` on the ASCII values the mock flag uses). -/
def strToLower (s : String) : String := String.mk (s.data.map Char.toLower)

/-- Function `readBool` from lib/api.ts: booleans pass through, strings are truthy
when lowercased `"true"` or exactly `"1"`, numbers when equal to 1,
everything else (null, undefined, objects, arrays) is false. -/
def readBool : Json → Bool
  | .bool b => b
  | .str s => strToLower s == "true" || s == "1"
  | .num q => q == 1
  | _ => false

/-- Reading `readBool(j?.mock)`: an undefined property reads as false. -/
def readBoolOpt : Option Json → Bool
  | some v => readBool v
  | none => false

/-- The ambient sources `resolveMockFlag` consults.  `importMetaEnv` /
`processEnv` are `MOCK_API` when set non-null (build-time and process
environment); `serverBody` is the parsed `/api/mock-flag` body when the
fetch succeeded with a JSON content type, `none` on any failure;
`isClient` is `typeof window !== "undefined"`. -/
structure MockEnv where
  importMetaEnv : Option Json
  processEnv : Option Json
  serverBody : Option Json
  isClient : Bool
deriving DecidableEq

/-- Module-level mutable state of the resolver: the cached flag, whether a
server resolution promise is in flight, and the `window.MOCK_API`
runtime override mirror. -/
structure MockState where
  mockFlagCached : Option Bool
  mockFlagPending : Bool
  windowVar : Option Json
deriving DecidableEq

/-- Function `immediateMockFlag`: the synchronous sources in priority order —
build-time `import.meta.env.MOCK_API`, then `process.env.MOCK_API`, then
the `window.MOCK_API` runtime override (client only). -/
def immediateMockFlag (env : MockEnv) (st : MockState) : Option Bool :=
  match env.importMetaEnv with
  | some v => some (readBool v)
  | none =>
    match env.processEnv with
    | some v => some (readBool v)
    | none =>
      if env.isClient then
        match st.windowVar with
        | some v => some (readBool v)
        | none => none
      else none

/-- What one `resolveMockFlag()` call returns to its caller: an already
determined boolean, the existing in-flight promise (joined, no new
fetch), or a freshly started server fetch. -/
inductive ResolveOutcome where
  | value (b : Bool) : ResolveOutcome
  | joinedPending : ResolveOutcome
  | startedFetch : ResolveOutcome
deriving DecidableEq

/-- The flag the server fallback eventually produces: `readBool(j?.mock)`
of the parsed body, false on any transport/format/parse failure. -/
def serverFlag (env : MockEnv) : Bool :=
  match env.serverBody with
  | some j => readBoolOpt (jsGet j "mock")
  | none => false

/-- One synchronous prefix of `resolveMockFlag()`: returns the outcome,
the updated module state, and whether a `/api/mock-flag` fetch was
issued by this call. -/
def resolveMockFlag (env : MockEnv) (st : MockState) : ResolveOutcome × MockState × Bool :=
  match st.mockFlagCached with
  | some b => (.value b, st, false)
  | none =>
    if st.mockFlagPending then (.joinedPending, st, false)
    else
      match immediateMockFlag env st with
      | some sync =>
        (.value sync,
         { st with mockFlagCached := some sync,
                   windowVar := if env.isClient then some (Json.bool sync) else st.windowVar },
         false)
      | none =>
        if !env.isClient then (.value false, { st with mockFlagCached := some false }, false)
        else (.startedFetch, { st with mockFlagPending := true }, true)

/-- Completion of the in-flight server resolution: the resolved flag is
cached, mirrored to `window.MOCK_API`, and the promise slot is cleared. -/
def completeServerResolve (env : MockEnv) (st : MockState) : Bool × MockState :=
  let flag := serverFlag env
  (flag,
   { st with mockFlagCached := some flag, windowVar := some (Json.bool flag),
             mockFlagPending := false })

/-! ## Statistics helpers (score-distribution components and page) -/

/-- A score-distribution bucket as typed by the components.
`candidate_count` is a nonnegative integer per the data model. -/
structure ScoreBucket where
  rating_bucket : String
  candidate_count : ℕ
  percentage : ℚ
  avg_rating_in_bucket : ℚ
deriving DecidableEq

/-- Function `calculateMode` from the score-distribution components: `reduce` with
strict `>` keeps the first bucket attaining the maximal count, and the
final `|| 2.5` turns a JS-falsy (zero) representative value into the
fallback. -/
def calculateMode (scoreDistribution : List ScoreBucket) : ℚ :=
  match scoreDistribution with
  | [] => 2.5
  | b :: rest =>
    let modeBucket := rest.foldl
      (fun mx bucket => if bucket.candidate_count > mx.candidate_count then bucket else mx) b
    if modeBucket.avg_rating_in_bucket = 0 then 2.5 else modeBucket.avg_rating_in_bucket

/-- The bucket walk inside `calculateMedian`: accumulate the running
count and return the first bucket whose running count reaches the
midpoint; the loop falling through returns the fallback. -/
def calculateMedianGo (midpoint : ℚ) (runningCount : ℕ) : List ScoreBucket → ℚ
  | [] => 2.5
  | bucket :: rest =>
    let r := runningCount + bucket.candidate_count
    if midpoint ≤ (r : ℚ) then bucket.avg_rating_in_bucket
    else calculateMedianGo midpoint r rest

/-- Function `calculateMedian` from the score-distribution components: midpoint is
`totalCandidates / 2` in exact arithmetic. -/
def calculateMedian (scoreDistribution : List ScoreBucket) : ℚ :=
  match scoreDistribution with
  | [] => 2.5
  | l =>
    let totalCandidates : ℕ := (l.map (fun b => b.candidate_count)).sum
    let midpoint : ℚ := (totalCandidates : ℚ) / 2
    calculateMedianGo midpoint 0 l

/-- The expansion step of `calculateScoreSummary`: each bucket
contributes `candidate_count` copies of its representative value. -/
def expandScores (scoreDistribution : List ScoreBucket) : List ℚ :=
  scoreDistribution.flatMap (fun b => List.replicate b.candidate_count b.avg_rating_in_bucket)

/-- Function `calculateScoreSummary` from `JobAnalyticsPage`: expand the buckets,
sort ascending (`allScores.sort((a, b) => a - b)`, modelled by an
insertion sort — the result is the unique `≤`-sorted permutation), and
take the true median of the expanded multiset; `\x7btotal: 0, median: 0\x7d`
for an empty distribution and median 0 for an empty expansion. -/
def calculateScoreSummary (scoreDistribution : List ScoreBucket) : ℕ × ℚ :=
  if scoreDistribution.isEmpty then (0, 0)
  else
    let total : ℕ := (scoreDistribution.map (fun b => b.candidate_count)).sum
    let sorted := (expandScores scoreDistribution).insertionSort (· ≤ ·)
    let n := sorted.length
    let median : ℚ :=
      if n > 0 then
        if n % 2 = 0 then (sorted.getD (n / 2 - 1) 0 + sorted.getD (n / 2) 0) / 2
        else sorted.getD (n / 2) 0
      else 0
    (total, median)

/-! ## Helper lemmas -/

/-- Whether a report call resolved. -/
def ApiResult.isOk : ApiResult → Bool
  | .ok _ => true
  | .err _ => false

/-- Lemma: `findSome?` hits the unique element on which `f` fires. -/
theorem findSome?_of_unique {α β : Type} (f : α → Option β) :
    ∀ (l : List α) (i : α) (b : β), i ∈ l → f i = some b →
      (∀ j ∈ l, j ≠ i → f j = none) → l.findSome? f = some b := by
  intro l
  induction l with
  | nil => intro i b hmem; cases hmem
  | cons hd tl ih =>
    intro i b hmem hi hother
    rcases List.mem_cons.mp hmem with heq | htl
    · subst heq
      simp [List.findSome?_cons, hi]
    · by_cases hhd : hd = i
      · subst hhd
        simp [List.findSome?_cons, hi]
      · have hnone : f hd = none := hother hd (List.mem_cons_self hd tl) hhd
        simp [List.findSome?_cons, hnone]
        exact ih i b htl hi (fun j hj => hother j (List.mem_cons_of_mem hd hj))

/-- If every call resolved, `Promise.all` does not reject. -/
theorem firstFailure_eq_none (responses : Fin 9 → ApiResult)
    (hok : ∀ j, (responses j).isOk = true) : firstFailure responses = none := by
  unfold firstFailure
  rw [List.findSome?_eq_none_iff]
  intro i _
  cases h : responses i with
  | ok b => simp
  | err e => have := hok i; rw [h] at this; exact absurd this (by simp [ApiResult.isOk])

/-- With exactly one failing call, `Promise.all` rejects with its error. -/
theorem firstFailure_of_single (responses : Fin 9 → ApiResult) (i : Fin 9) (e : String)
    (hi : responses i = .err e) (hok : ∀ j, j ≠ i → (responses j).isOk = true) :
    firstFailure responses = some e := by
  unfold firstFailure
  apply findSome?_of_unique _ _ i e (List.mem_finRange i)
  · rw [hi]
  · intro j _ hj
    cases h : responses j with
    | ok b => rfl
    | err e2 =>
      have := hok j hj
      rw [h] at this
      exact absurd this (by simp [ApiResult.isOk])

/-! ## Claim theorems -/

/-- Claim C9: when `load` runs with no job identifier, the resulting
state has a null analytics record and `isLoading = false`, and the cycle
performs no network activity at all: `resolveMockFlag` is never invoked
(so no mock-flag server fetch can be triggered by this path) and none of
the nine report fetches is issued. -/
theorem noJobIdYieldsNullNoFetch (mockFlag : Bool) (responses : Fin 9 → ApiResult)
    (s0 : State) :
    (runLoad none mockFlag responses s0).1.analytics = none ∧
    (runLoad none mockFlag responses s0).1.isLoading = false ∧
    (runLoad none mockFlag responses s0).2.mockResolveCalled = false ∧
    (runLoad none mockFlag responses s0).2.reportFetches = 0 :=
  ⟨rfl, rfl, rfl, rfl⟩

/-- Claim C1: in real (non-mock) mode with a job id present, if exactly
one of the nine parallel report calls rejects — at any of the nine
positions — the whole load fails: the final state is the errored state
with the originating error retained, a null analytics record, and both
list artifacts cleared to empty. -/
theorem singleFailureErrorsWholeLoad (jid : String) (s0 : State)
    (responses : Fin 9 → ApiResult) (i : Fin 9) (e : String)
    (hjid : jid ≠ "") (hi : responses i = .err e)
    (hok : ∀ j, j ≠ i → (responses j).isOk = true) :
    (runLoad (some jid) false responses s0).1 =
      { analytics := none, proctoringEvents := Json.arr [],
        sectionPerformance := Json.arr [], isLoading := false, hasError := true,
        analyticsError := some e } := by
  have htruthy : jsTruthy (some jid) = true := by
    simp [jsTruthy, hjid]
  have hff : firstFailure responses = some e := firstFailure_of_single responses i e hi hok
  simp [runLoad, loadUpdates, htruthy, hff, runUpdates, applyUpdate]

/-- A nine-response vector whose position 3 (score-distribution) fails. -/
def exampleFailResponses : Fin 9 → ApiResult := fun j =>
  if j = 3 then ApiResult.err "boom" else ApiResult.ok (Json.obj [("data", Json.arr [])])

theorem singleFailureErrorsWholeLoad_witness :
    (runLoad (some "j1") false exampleFailResponses (initialState (some "j1"))).1 =
      { analytics := none, proctoringEvents := Json.arr [],
        sectionPerformance := Json.arr [], isLoading := false, hasError := true,
        analyticsError := some "boom" } :=
  singleFailureErrorsWholeLoad "j1" (initialState (some "j1")) exampleFailResponses 3 "boom"
    (by decide) (by decide) (by decide)

/-- Claim C4 (amended): the state updates of the hook are NOT guarded by any
currently-active-identifier check — every `setState` updater applies
unconditionally, so whichever success among the load cycles lands last determines
the state.  In particular a trace ending in any success update yields
exactly the data of that update, regardless of everything applied before. -/
theorem unguardedLastWriteWins (s0 : State) (us : List Update) (a : JobAnalyticsData)
    (pe se : Json) :
    runUpdates s0 (us ++ [Update.success a pe se]) =
      { analytics := some a, proctoringEvents := pe, sectionPerformance := se,
        isLoading := false, hasError := false, analyticsError := none } := by
  simp [runUpdates, List.foldl_append, applyUpdate]

/-- Claim C4 counterexample: two overlapping load cycles for the same
hook instance — the response of the superseded cycle arrives after the newer
success of the newer cycle (trace: start one, start two, success two, late success one).  The
final state carries the record of the superseded cycle, which differs from
the newer one: a late-arriving response from a superseded load DOES
overwrite the state of the newer load, so no generation counter or
abandonment flag guards the updates. -/
theorem staleOverwriteCex :
    (runUpdates (initialState (some "j1"))
        [Update.startLoading, Update.startLoading,
         Update.success { emptyAnalytics with total_interviews := Json.num 7 }
           (Json.arr []) (Json.arr []),
         Update.success { emptyAnalytics with total_interviews := Json.num 1 }
           (Json.arr []) (Json.arr [])]).analytics =
      some { emptyAnalytics with total_interviews := Json.num 1 } ∧
    ({ emptyAnalytics with total_interviews := Json.num 1 } : JobAnalyticsData) ≠
      { emptyAnalytics with total_interviews := Json.num 7 } := by
  constructor
  · rfl
  · decide

/-- The per-field contract of `x ?? d`: a present non-null source value
passes through verbatim; a missing or null source yields the default. -/
def coalesces (src : Option Json) (dflt out : Json) : Prop :=
  (∀ v, src = some v → v ≠ Json.null → out = v) ∧
  ((src = none ∨ src = some Json.null) → out = dflt)

theorem jsCoalesce_coalesces (src : Option Json) (d : Json) :
    coalesces src d (jsCoalesce src d) := by
  constructor
  · intro v hv hne
    subst hv
    cases v
    case null => exact absurd rfl hne
    all_goals rfl
  · rintro (h | h) <;> subst h <;> rfl

/-- Collapsing `(x ?? []) ?? []` to `x ?? []`. -/
theorem jsCoalesce_arr_idem (x : Option Json) :
    jsCoalesce (some (jsCoalesce x (Json.arr []))) (Json.arr []) = jsCoalesce x (Json.arr []) := by
  rcases x with _ | v
  · rfl
  · cases v <;> rfl

/-- Timeline normalization: a missing or null raw value ends as `[]`. -/
theorem timelineNorm_default (raw : Option Json)
    (h : raw = none ∨ raw = some Json.null) :
    jsCoalesce (some (parseMaybeJson (jsCoalesce raw (Json.arr [])) (Json.arr [])))
      (Json.arr []) = Json.arr [] := by
  rcases h with h | h <;> subst h <;> rfl

/-- Timeline normalization: a raw array passes through unchanged. -/
theorem timelineNorm_arr (raw : Option Json) (xs : List Json)
    (h : raw = some (Json.arr xs)) :
    jsCoalesce (some (parseMaybeJson (jsCoalesce raw (Json.arr [])) (Json.arr [])))
      (Json.arr []) = Json.arr xs := by
  subst h; rfl

/-- Timeline normalization: a raw string goes through the decode rule. -/
theorem timelineNorm_str (raw : Option Json) (s : String)
    (h : raw = some (Json.str s)) :
    jsCoalesce (some (parseMaybeJson (jsCoalesce raw (Json.arr [])) (Json.arr [])))
      (Json.arr []) =
      jsCoalesce (some (parseMaybeJson (Json.str s) (Json.arr []))) (Json.arr []) := by
  subst h; rfl

/-- Claim C2 (amended): every successful 9-endpoint load merges into a
record that is total by construction, with every field defaulted
independently by `?? default` semantics: a present non-null source value
is kept verbatim and a missing-or-null one becomes its documented
default (0 for counts and rates, null for the nullable averages and
medians, the empty sequence for the three distribution fields) — except
the two timeline fields, whose supplied value is first normalized by the
timeline decode rule (arrays pass through unchanged; strings are
JSON-decoded rather than kept verbatim). -/
theorem mergedRecordDefaults (jid : String) (s0 : State) (responses : Fin 9 → ApiResult)
    (hjid : jid ≠ "") (hok : ∀ j, (responses j).isOk = true) :
    (runLoad (some jid) false responses s0).1.analytics =
      some (mergeResponses (fun i => okBody (responses i))).1 ∧
    ∀ r : Fin 9 → Json,
      coalesces (jsGet (dataRow (r 0)) "avg_interview_rating") Json.null
        (mergeResponses r).1.avg_interview_rating ∧
      coalesces (jsGet (dataRow (r 0)) "total_interviews") (Json.num 0)
        (mergeResponses r).1.total_interviews ∧
      coalesces (jsGet (dataRow (r 0)) "rated_interviews") (Json.num 0)
        (mergeResponses r).1.rated_interviews ∧
      coalesces (jsGet (dataRow (r 0)) "avg_duration_minutes") Json.null
        (mergeResponses r).1.avg_duration_minutes ∧
      coalesces (jsGet (dataRow (r 0)) "completed_interviews") (Json.num 0)
        (mergeResponses r).1.completed_interviews ∧
      coalesces (jsGet (dataRow (r 1)) "total_applications") (Json.num 0)
        (mergeResponses r).1.total_applications ∧
      coalesces (jsGet (dataRow (r 1)) "applied_count") (Json.num 0)
        (mergeResponses r).1.applied_count ∧
      coalesces (jsGet (dataRow (r 1)) "resume_received_count") (Json.num 0)
        (mergeResponses r).1.resume_received_count ∧
      coalesces (jsGet (dataRow (r 1)) "interviewing_count") (Json.num 0)
        (mergeResponses r).1.interviewing_count ∧
      coalesces (jsGet (dataRow (r 1)) "application_done_count") (Json.num 0)
        (mergeResponses r).1.application_done_count ∧
      coalesces (jsGet (dataRow (r 1)) "applied_to_resume_rate") (Json.num 0)
        (mergeResponses r).1.applied_to_resume_rate ∧
      coalesces (jsGet (dataRow (r 1)) "resume_to_interview_rate") (Json.num 0)
        (mergeResponses r).1.resume_to_interview_rate ∧
      coalesces (jsGet (dataRow (r 1)) "interview_to_done_rate") (Json.num 0)
        (mergeResponses r).1.interview_to_done_rate ∧
      coalesces (jsGet (dataRow (r 1)) "overall_conversion_rate") (Json.num 0)
        (mergeResponses r).1.overall_conversion_rate ∧
      coalesces (jsGet (dataRow (r 2)) "total_proctored_interviews") (Json.num 0)
        (mergeResponses r).1.total_proctored_interviews ∧
      coalesces (jsGet (dataRow (r 2)) "interviews_with_concerns") (Json.num 0)
        (mergeResponses r).1.interviews_with_concerns ∧
      coalesces (jsGet (dataRow (r 2)) "total_critical_events") (Json.num 0)
        (mergeResponses r).1.total_critical_events ∧
      coalesces (jsGet (dataRow (r 2)) "avg_critical_events_per_interview") (Json.num 0)
        (mergeResponses r).1.avg_critical_events_per_interview ∧
      coalesces (jsGet (dataRow (r 2)) "percentage_interviews_with_concerns") (Json.num 0)
        (mergeResponses r).1.percentage_interviews_with_concerns ∧
      coalesces (jsGet (r 3) "data") (Json.arr [])
        (mergeResponses r).1.score_distribution ∧
      coalesces (jsGet (dataRow (r 4)) "total_hires") (Json.num 0)
        (mergeResponses r).1.total_hires ∧
      coalesces (jsGet (dataRow (r 4)) "avg_days_to_hire") Json.null
        (mergeResponses r).1.avg_days_to_hire ∧
      coalesces (jsGet (dataRow (r 4)) "median_days_to_hire") Json.null
        (mergeResponses r).1.median_days_to_hire ∧
      coalesces (jsGet (dataRow (r 5)) "completion_rate") (Json.num 0)
        (mergeResponses r).1.completion_rate ∧
      coalesces (jsGet (dataRow (r 5)) "abandonment_rate") (Json.num 0)
        (mergeResponses r).1.abandonment_rate ∧
      ((jsGet (dataRow (r 6)) "interview_date_distribution" = none ∨
        jsGet (dataRow (r 6)) "interview_date_distribution" = some Json.null) →
        (mergeResponses r).1.interview_date_distribution = Json.arr []) ∧
      (∀ xs, jsGet (dataRow (r 6)) "interview_date_distribution" = some (Json.arr xs) →
        (mergeResponses r).1.interview_date_distribution = Json.arr xs) ∧
      (∀ s, jsGet (dataRow (r 6)) "interview_date_distribution" = some (Json.str s) →
        (mergeResponses r).1.interview_date_distribution =
          jsCoalesce (some (parseMaybeJson (Json.str s) (Json.arr []))) (Json.arr [])) ∧
      ((jsGet (dataRow (r 6)) "interview_time_distribution" = none ∨
        jsGet (dataRow (r 6)) "interview_time_distribution" = some Json.null) →
        (mergeResponses r).1.interview_time_distribution = Json.arr []) ∧
      (∀ xs, jsGet (dataRow (r 6)) "interview_time_distribution" = some (Json.arr xs) →
        (mergeResponses r).1.interview_time_distribution = Json.arr xs) ∧
      (∀ s, jsGet (dataRow (r 6)) "interview_time_distribution" = some (Json.str s) →
        (mergeResponses r).1.interview_time_distribution =
          jsCoalesce (some (parseMaybeJson (Json.str s) (Json.arr []))) (Json.arr [])) := by
  constructor
  · have htruthy : jsTruthy (some jid) = true := by simp [jsTruthy, hjid]
    have hff : firstFailure responses = none := firstFailure_eq_none responses hok
    simp [runLoad, loadUpdates, htruthy, hff, runUpdates, applyUpdate]
  · intro r
    refine ⟨jsCoalesce_coalesces _ _, jsCoalesce_coalesces _ _, jsCoalesce_coalesces _ _,
      jsCoalesce_coalesces _ _, jsCoalesce_coalesces _ _, jsCoalesce_coalesces _ _,
      jsCoalesce_coalesces _ _, jsCoalesce_coalesces _ _, jsCoalesce_coalesces _ _,
      jsCoalesce_coalesces _ _, jsCoalesce_coalesces _ _, jsCoalesce_coalesces _ _,
      jsCoalesce_coalesces _ _, jsCoalesce_coalesces _ _, jsCoalesce_coalesces _ _,
      jsCoalesce_coalesces _ _, jsCoalesce_coalesces _ _, jsCoalesce_coalesces _ _,
      jsCoalesce_coalesces _ _, ?_, jsCoalesce_coalesces _ _, jsCoalesce_coalesces _ _,
      jsCoalesce_coalesces _ _, jsCoalesce_coalesces _ _, jsCoalesce_coalesces _ _,
      fun h => timelineNorm_default _ h, fun xs h => timelineNorm_arr _ xs h,
      fun s h => timelineNorm_str _ s h, fun h => timelineNorm_default _ h,
      fun xs h => timelineNorm_arr _ xs h, fun s h => timelineNorm_str _ s h⟩
    show coalesces (jsGet (r 3) "data") (Json.arr [])
      (jsCoalesce (some (jsCoalesce (jsGet (r 3) "data") (Json.arr []))) (Json.arr []))
    rw [jsCoalesce_arr_idem]
    exact jsCoalesce_coalesces _ _

/-- A nine-response vector in which every endpoint returns an empty
`data` array. -/
def exampleOkResponses : Fin 9 → ApiResult := fun _ =>
  ApiResult.ok (Json.obj [("data", Json.arr [])])

theorem mergedRecordDefaults_witness :
    (runLoad (some "j1") false exampleOkResponses (initialState (some "j1"))).1.analytics =
      some (mergeResponses (fun i => okBody (exampleOkResponses i))).1 :=
  (mergedRecordDefaults "j1" (initialState (some "j1")) exampleOkResponses
    (by decide) (by decide)).1

/-- A nine-response vector whose timeline row supplies the date
distribution as the JSON-encoded string `"[]"`. -/
def cexTimelineResponses : Fin 9 → ApiResult := fun j =>
  if j = 6 then
    ApiResult.ok (Json.obj [("data", Json.arr [Json.obj
      [("interview_date_distribution", Json.str "[]"),
       ("interview_time_distribution", Json.arr [])]])])
  else ApiResult.ok (Json.obj [("data", Json.arr [])])

/-- Claim C2 counterexample: the timeline row supplies the non-null
value `"[]"` (a string), yet the merged field is the decoded
`[]`, not the supplied string — so "each field whose source row supplies
a non-null, non-missing value equals that supplied value" fails as
stated for the timeline fields. -/
theorem mergedRecordVerbatimCex :
    jsGet (dataRow (okBody (cexTimelineResponses 6))) "interview_date_distribution" =
      some (Json.str "[]") ∧
    Json.str "[]" ≠ Json.null ∧
    ((runLoad (some "j1") false cexTimelineResponses (initialState (some "j1"))).1.analytics).map
      (fun c => c.interview_date_distribution) = some (Json.arr []) ∧
    Json.arr [] ≠ Json.str "[]" := by decide

/-- A nine-body vector whose interview-timeline response carries the
given two raw timeline field values. -/
def timelineResponses (v w : Json) (other : Fin 9 → Json) : Fin 9 → Json := fun i =>
  if i = 6 then
    Json.obj [("data", Json.arr [Json.obj
      [("interview_date_distribution", v), ("interview_time_distribution", w)]])]
  else other i

/-- The merged date-distribution field, unfolded. -/
theorem mergeResponses_dateDist (r : Fin 9 → Json) :
    (mergeResponses r).1.interview_date_distribution =
      jsCoalesce (some (parseMaybeJson
        (jsCoalesce (jsGet (dataRow (r 6)) "interview_date_distribution") (Json.arr []))
        (Json.arr []))) (Json.arr []) := rfl

/-- The merged time-distribution field, unfolded. -/
theorem mergeResponses_timeDist (r : Fin 9 → Json) :
    (mergeResponses r).1.interview_time_distribution =
      jsCoalesce (some (parseMaybeJson
        (jsCoalesce (jsGet (dataRow (r 6)) "interview_time_distribution") (Json.arr []))
        (Json.arr []))) (Json.arr []) := rfl

/-- The raw date value the hook extracts from a `timelineResponses` row. -/
theorem timelineResponses_dateRaw (v w : Json) (other : Fin 9 → Json) :
    jsGet (dataRow (timelineResponses v w other 6)) "interview_date_distribution" = some v := by
  simp [timelineResponses, dataRow, jsGet, jsCoalesce, optChain, jsIndexZero, lookupLast]

/-- The raw time value the hook extracts from a `timelineResponses` row. -/
theorem timelineResponses_timeRaw (v w : Json) (other : Fin 9 → Json) :
    jsGet (dataRow (timelineResponses v w other 6)) "interview_time_distribution" = some w := by
  simp [timelineResponses, dataRow, jsGet, jsCoalesce, optChain, jsIndexZero, lookupLast]

/-- Claim C3: in the merged record, a timeline field value that arrives
as an array is passed through unchanged; one that arrives as a string is
JSON-decoded, and when the string decodes to an array the merged field
is that parsed array (in particular the example string of the spec decodes to
its parsed array); a string that fails to parse yields the empty
sequence. -/
theorem timelineDecode (v w : Json) (other : Fin 9 → Json) :
    (∀ xs, v = Json.arr xs →
      (mergeResponses (timelineResponses v w other)).1.interview_date_distribution =
        Json.arr xs) ∧
    (∀ s xs, v = Json.str s → parseJson s = some (Json.arr xs) →
      (mergeResponses (timelineResponses v w other)).1.interview_date_distribution =
        Json.arr xs) ∧
    (∀ s, v = Json.str s → parseJson s = none →
      (mergeResponses (timelineResponses v w other)).1.interview_date_distribution =
        Json.arr []) ∧
    (∀ xs, w = Json.arr xs →
      (mergeResponses (timelineResponses v w other)).1.interview_time_distribution =
        Json.arr xs) ∧
    (∀ s xs, w = Json.str s → parseJson s = some (Json.arr xs) →
      (mergeResponses (timelineResponses v w other)).1.interview_time_distribution =
        Json.arr xs) ∧
    (∀ s, w = Json.str s → parseJson s = none →
      (mergeResponses (timelineResponses v w other)).1.interview_time_distribution =
        Json.arr []) ∧
    (mergeResponses (timelineResponses
        (Json.str "[\x7b\x22date\x22:\x222025-01-01\x22,\x22candidate_count\x22:3\x7d]")
        w other)).1.interview_date_distribution =
      Json.arr [Json.obj [("date", Json.str "2025-01-01"), ("candidate_count", Json.num 3)]] ∧
    (mergeResponses (timelineResponses (Json.str "not json") w other)).1.interview_date_distribution =
      Json.arr [] := by
  refine ⟨?_, ?_, ?_, ?_, ?_, ?_, ?_, ?_⟩
  · intro xs hv
    subst hv
    rw [mergeResponses_dateDist, timelineResponses_dateRaw]
    rfl
  · intro s xs hv hp
    subst hv
    rw [mergeResponses_dateDist, timelineResponses_dateRaw]
    simp [jsCoalesce, parseMaybeJson, hp]
  · intro s hv hp
    subst hv
    rw [mergeResponses_dateDist, timelineResponses_dateRaw]
    simp [jsCoalesce, parseMaybeJson, hp]
  · intro xs hw
    subst hw
    rw [mergeResponses_timeDist, timelineResponses_timeRaw]
    rfl
  · intro s xs hw hp
    subst hw
    rw [mergeResponses_timeDist, timelineResponses_timeRaw]
    simp [jsCoalesce, parseMaybeJson, hp]
  · intro s hw hp
    subst hw
    rw [mergeResponses_timeDist, timelineResponses_timeRaw]
    simp [jsCoalesce, parseMaybeJson, hp]
  · rw [mergeResponses_dateDist, timelineResponses_dateRaw]
    rfl
  · rw [mergeResponses_dateDist, timelineResponses_dateRaw]
    rfl

theorem timelineDecode_witness :
    (mergeResponses (timelineResponses
        (Json.str "[\x7b\x22date\x22:\x222025-01-01\x22,\x22candidate_count\x22:3\x7d]")
        (Json.arr []) (fun _ => Json.obj [("data", Json.arr [])]))).1.interview_date_distribution =
      Json.arr [Json.obj [("date", Json.str "2025-01-01"), ("candidate_count", Json.num 3)]] :=
  (timelineDecode (Json.str "[\x7b\x22date\x22:\x222025-01-01\x22,\x22candidate_count\x22:3\x7d]")
      (Json.arr []) (fun _ => Json.obj [("data", Json.arr [])])).2.1
    "[\x7b\x22date\x22:\x222025-01-01\x22,\x22candidate_count\x22:3\x7d]"
    [Json.obj [("date", Json.str "2025-01-01"), ("candidate_count", Json.num 3)]]
    rfl (by decide)

/-- Claim C10 (amended): `parseMaybeJson` itself returns the parsed
value unchanged for every string holding valid JSON (array or not), and
falls back exactly for unparsable strings and for values that are
neither strings nor arrays.  At the merged-record level a parsed
non-array value also flows through verbatim — except the parsed value
`null` (the string `"null"`), which the trailing `?? []` of the merge
replaces with the empty sequence. -/
theorem parseMaybeJsonNonArrayPassthrough :
    (∀ (s : String) (j fb : Json), parseJson s = some j →
      parseMaybeJson (Json.str s) fb = j) ∧
    (∀ (s : String) (fb : Json), parseJson s = none →
      parseMaybeJson (Json.str s) fb = fb) ∧
    (∀ (v fb : Json), (∀ s, v ≠ Json.str s) → (∀ xs, v ≠ Json.arr xs) →
      parseMaybeJson v fb = fb) ∧
    (∀ (s : String) (j w : Json) (other : Fin 9 → Json),
      parseJson s = some j → j ≠ Json.null →
      (mergeResponses (timelineResponses (Json.str s) w other)).1.interview_date_distribution
        = j) ∧
    (∀ (w : Json) (other : Fin 9 → Json),
      (mergeResponses (timelineResponses (Json.str "null") w other)).1.interview_date_distribution
        = Json.arr []) ∧
    parseMaybeJson (Json.str "5") (Json.arr []) = Json.num 5 ∧
    parseMaybeJson (Json.str "\x7b\x7d") (Json.arr []) = Json.obj [] := by
  refine ⟨?_, ?_, ?_, ?_, ?_, by decide, by decide⟩
  · intro s j fb hp
    simp [parseMaybeJson, hp]
  · intro s fb hp
    simp [parseMaybeJson, hp]
  · intro v fb hs hxs
    cases v with
    | str s => exact absurd rfl (hs s)
    | arr xs => exact absurd rfl (hxs xs)
    | null => rfl
    | bool b => rfl
    | num q => rfl
    | obj kvs => rfl
  · intro s j w other hp hne
    rw [mergeResponses_dateDist, timelineResponses_dateRaw]
    have hpm : parseMaybeJson (Json.str s) (Json.arr []) = j := by simp [parseMaybeJson, hp]
    show jsCoalesce (some (parseMaybeJson (jsCoalesce (some (Json.str s)) (Json.arr []))
      (Json.arr []))) (Json.arr []) = j
    rw [show jsCoalesce (some (Json.str s)) (Json.arr []) = Json.str s from rfl, hpm]
    cases j with
    | null => exact absurd rfl hne
    | bool b => rfl
    | num q => rfl
    | str s2 => rfl
    | arr xs => rfl
    | obj kvs => rfl
  · intro w other
    rw [mergeResponses_dateDist, timelineResponses_dateRaw]
    rfl

theorem parseMaybeJsonNonArrayPassthrough_witness :
    (mergeResponses (timelineResponses (Json.str "5") (Json.arr [])
        (fun _ => Json.obj [("data", Json.arr [])]))).1.interview_date_distribution =
      Json.num 5 :=
  parseMaybeJsonNonArrayPassthrough.2.2.2.1 "5" (Json.num 5) (Json.arr [])
    (fun _ => Json.obj [("data", Json.arr [])]) (by decide) (by decide)

/-- Claim C10 counterexample: `"null"` is a string holding valid
non-array JSON, yet the merged field equals the empty-sequence
fallback (the `?? []` of the merge replaces the parsed `null`), refuting
"returns the parsed non-array value unchanged into the merged record
rather than the empty-sequence fallback" as universally stated. -/
theorem parseMaybeJsonNullCex :
    parseJson "null" = some Json.null ∧
    parseMaybeJson (Json.str "null") (Json.arr []) = Json.null ∧
    (mergeResponses (timelineResponses (Json.str "null") (Json.arr [])
        (fun _ => Json.obj [("data", Json.arr [])]))).1.interview_date_distribution =
      Json.arr [] ∧
    Json.null ≠ Json.arr [] := by decide

/-- The recursion underlying the `reduce` call of the components: keep the current
maximum, replacing it only on a strictly greater count. -/
def firstMaxBucket : ScoreBucket → List ScoreBucket → ScoreBucket
  | b, [] => b
  | b, c :: rest =>
    if c.candidate_count > b.candidate_count then firstMaxBucket c rest
    else firstMaxBucket b rest

/-- The `reduce` in `calculateMode` computes `firstMaxBucket`. -/
theorem foldl_eq_firstMaxBucket (l : List ScoreBucket) : ∀ b : ScoreBucket,
    l.foldl (fun mx bucket =>
      if bucket.candidate_count > mx.candidate_count then bucket else mx) b
      = firstMaxBucket b l := by
  induction l with
  | nil => intro b; rfl
  | cons c rest ih =>
    intro b
    simp only [List.foldl_cons, firstMaxBucket]
    by_cases h : c.candidate_count > b.candidate_count
    · simp only [if_pos h, ih]
    · simp only [if_neg h, ih]

/-- Function `firstMaxBucket` returns the first bucket (in iteration order)
attaining the maximal count: the list splits around the result, every
bucket strictly before it has a strictly smaller count, and no bucket
exceeds it. -/
theorem firstMaxBucket_spec (l : List ScoreBucket) : ∀ b : ScoreBucket,
    ∃ pre post,
      b :: l = pre ++ firstMaxBucket b l :: post ∧
      (∀ x ∈ pre, x.candidate_count < (firstMaxBucket b l).candidate_count) ∧
      (∀ x ∈ b :: l, x.candidate_count ≤ (firstMaxBucket b l).candidate_count) := by
  induction l with
  | nil =>
    intro b
    refine ⟨[], [], rfl, by simp, ?_⟩
    intro x hx
    rcases List.mem_singleton.mp hx with rfl
    exact le_refl _
  | cons c rest ih =>
    intro b
    by_cases hcb : c.candidate_count > b.candidate_count
    · obtain ⟨pre', post', heq, hpre, hle⟩ := ih c
      have hfm : firstMaxBucket b (c :: rest) = firstMaxBucket c rest := by
        simp only [firstMaxBucket, if_pos hcb]
      have hcle : c.candidate_count ≤ (firstMaxBucket c rest).candidate_count :=
        hle c (List.mem_cons_self c rest)
      refine ⟨b :: pre', post', ?_, ?_, ?_⟩
      · rw [hfm, List.cons_append, ← heq]
      · intro x hx
        rw [hfm]
        rcases List.mem_cons.mp hx with rfl | hx'
        · exact lt_of_lt_of_le hcb hcle
        · exact hpre x hx'
      · intro x hx
        rw [hfm]
        rcases List.mem_cons.mp hx with rfl | hx'
        · exact le_of_lt (lt_of_lt_of_le hcb hcle)
        · exact hle x hx'
    · obtain ⟨pre', post', heq, hpre, hle⟩ := ih b
      have hfm : firstMaxBucket b (c :: rest) = firstMaxBucket b rest := by
        simp only [firstMaxBucket, if_neg hcb]
      have hcb' : c.candidate_count ≤ b.candidate_count := le_of_not_lt hcb
      have hble : b.candidate_count ≤ (firstMaxBucket b rest).candidate_count :=
        hle b (List.mem_cons_self b rest)
      cases pre' with
      | nil =>
        have hb : b = firstMaxBucket b rest := by
          have := heq
          simp only [List.nil_append] at this
          exact (List.cons.inj this).1
        refine ⟨[], c :: rest, ?_, by simp, ?_⟩
        · rw [hfm, List.nil_append, ← hb]
        · intro x hx
          rw [hfm, ← hb]
          rcases List.mem_cons.mp hx with rfl | hx'
          · exact le_refl _
          · rcases List.mem_cons.mp hx' with rfl | hx''
            · exact hcb'
            · have := hle x (List.mem_cons_of_mem b hx'')
              rw [← hb] at this
              exact this
      | cons p pre'' =>
        have hheads : p = b ∧ rest = pre'' ++ firstMaxBucket b rest :: post' := by
          have := heq
          simp only [List.cons_append] at this
          exact ⟨(List.cons.inj this).1.symm, (List.cons.inj this).2⟩
        have hbmem : b.candidate_count < (firstMaxBucket b rest).candidate_count := by
          have := hpre p (List.mem_cons_self p pre'')
          rw [hheads.1] at this
          exact this
        refine ⟨b :: c :: pre'', post', ?_, ?_, ?_⟩
        · rw [hfm]
          simp only [List.cons_append]
          rw [← hheads.2]
        · intro x hx
          rw [hfm]
          rcases List.mem_cons.mp hx with rfl | hx'
          · exact hbmem
          · rcases List.mem_cons.mp hx' with rfl | hx''
            · exact lt_of_le_of_lt hcb' hbmem
            · exact hpre x (List.mem_cons_of_mem p hx'')
        · intro x hx
          rw [hfm]
          rcases List.mem_cons.mp hx with rfl | hx'
          · exact hble
          · rcases List.mem_cons.mp hx' with rfl | hx''
            · exact le_trans hcb' hble
            · exact hle x (List.mem_cons_of_mem b hx'')

/-- Claim C5 (amended): on a non-empty score distribution,
`calculateMode` locates the first bucket (in iteration order) attaining
the maximal `candidate_count` — ties resolve to the earliest such bucket
— and returns its `avg_rating_in_bucket`, EXCEPT when that value is 0
(JS-falsy), in which case the `|| 2.5` coercion returns the fallback
2.5 instead; the empty distribution yields 2.5; on the example
buckets the result is 2. -/
theorem calculateModeFirstMax :
    (∀ (b : ScoreBucket) (l : List ScoreBucket),
      ∃ m pre post,
        b :: l = pre ++ m :: post ∧
        (∀ x ∈ pre, x.candidate_count < m.candidate_count) ∧
        (∀ x ∈ b :: l, x.candidate_count ≤ m.candidate_count) ∧
        calculateMode (b :: l) =
          (if m.avg_rating_in_bucket = 0 then 2.5 else m.avg_rating_in_bucket)) ∧
    calculateMode [] = 2.5 ∧
    calculateMode [⟨"1-2", 3, 25, 1⟩, ⟨"2-3", 8, 66, 2⟩, ⟨"3-4", 1, 9, 3⟩] = 2 := by
  refine ⟨?_, rfl, by decide⟩
  intro b l
  obtain ⟨pre, post, heq, hpre, hle⟩ := firstMaxBucket_spec l b
  refine ⟨firstMaxBucket b l, pre, post, heq, hpre, hle, ?_⟩
  simp only [calculateMode, foldl_eq_firstMaxBucket]

/-- Claim C5 counterexample: a single maximal bucket whose
`avg_rating_in_bucket` is 0 — the claim demands the returned value be
the value of that bucket (0), but the `|| 2.5` in the code returns 2.5. -/
theorem calculateModeZeroCex :
    calculateMode [⟨"0-1", 5, 100, 0⟩] = 2.5 ∧
    (ScoreBucket.mk "0-1" 5 100 0).avg_rating_in_bucket = 0 ∧
    calculateMode [⟨"0-1", 5, 100, 0⟩] ≠ 0 := by
  refine ⟨rfl, rfl, ?_⟩
  rw [show calculateMode [⟨"0-1", 5, 100, 0⟩] = 2.5 from rfl]
  norm_num

/-- The bucket walk, when the midpoint is reachable (as it always is for
the midpoint `total/2` of nonnegative counts), stops at the first bucket
whose running count reaches the midpoint and returns its value. -/
theorem medianGo_reaches (mid : ℚ) :
    ∀ (l : List ScoreBucket), l ≠ [] → ∀ running : ℕ,
      mid ≤ ((running + (l.map (fun b => b.candidate_count)).sum : ℕ) : ℚ) →
      ∃ i : Fin l.length,
        calculateMedianGo mid running l = (l.get i).avg_rating_in_bucket ∧
        mid ≤ (((running + ((l.map (fun b => b.candidate_count)).take (i.1 + 1)).sum : ℕ)) : ℚ) ∧
        ∀ j : Fin l.length, j.1 < i.1 →
          (((running + ((l.map (fun b => b.candidate_count)).take (j.1 + 1)).sum : ℕ)) : ℚ) < mid := by
  intro l
  induction l with
  | nil => intro hne; exact absurd rfl hne
  | cons b rest ih =>
    intro _ running htot
    by_cases hc : mid ≤ ((running + b.candidate_count : ℕ) : ℚ)
    · refine ⟨⟨0, by simp⟩, ?_, ?_, ?_⟩
      · show calculateMedianGo mid running (b :: rest) = b.avg_rating_in_bucket
        simp only [calculateMedianGo]
        rw [if_pos hc]
      · have heqn : running + (((b :: rest).map (fun b => b.candidate_count)).take (0 + 1)).sum
            = running + b.candidate_count := by
          simp
        rw [heqn]
        exact hc
      · intro j hj
        exact absurd hj (Nat.not_lt_zero j.1)
    · have hsum : running + ((b :: rest).map (fun b => b.candidate_count)).sum
          = (running + b.candidate_count) + (rest.map (fun b => b.candidate_count)).sum := by
        simp only [List.map_cons, List.sum_cons]
        omega
      have hrestne : rest ≠ [] := by
        intro h
        subst h
        rw [hsum] at htot
        simp only [List.map_nil, List.sum_nil, Nat.add_zero] at htot
        exact hc htot
      have htot' : mid ≤
          (((running + b.candidate_count) + (rest.map (fun b => b.candidate_count)).sum : ℕ) : ℚ) := by
        rw [← hsum]
        exact htot
      obtain ⟨i', h1, h2, h3⟩ := ih hrestne (running + b.candidate_count) htot'
      refine ⟨⟨i'.1 + 1, by have h2i := i'.2; simp only [List.length_cons] at h2i ⊢; omega⟩, ?_, ?_, ?_⟩
      · show calculateMedianGo mid running (b :: rest) =
          (((b :: rest).get ⟨i'.1 + 1, _⟩)).avg_rating_in_bucket
        have hstep : calculateMedianGo mid running (b :: rest) =
            calculateMedianGo mid (running + b.candidate_count) rest := by
          simp only [calculateMedianGo]
          rw [if_neg hc]
        rw [hstep, h1]
        rfl
      · have heqn : running + (((b :: rest).map (fun b => b.candidate_count)).take (i'.1 + 1 + 1)).sum
            = (running + b.candidate_count) +
                ((rest.map (fun b => b.candidate_count)).take (i'.1 + 1)).sum := by
          simp only [List.map_cons, List.take_succ_cons, List.sum_cons]
          omega
        rw [heqn]
        exact h2
      · intro j hj
        match j, hj with
        | ⟨0, hj0⟩, _ =>
          have heqn : running + (((b :: rest).map (fun b => b.candidate_count)).take (0 + 1)).sum
              = running + b.candidate_count := by
            simp
          rw [heqn]
          exact lt_of_not_le hc
        | ⟨jj + 1, hjsucc⟩, hjlt =>
          have hjlt' : jj < i'.1 := by
            simpa using hjlt
          have hprev := h3 ⟨jj, by simpa using Nat.lt_of_succ_lt_succ hjsucc⟩ hjlt'
          have heqn : running + (((b :: rest).map (fun b => b.candidate_count)).take (jj + 1 + 1)).sum
              = (running + b.candidate_count) +
                  ((rest.map (fun b => b.candidate_count)).take (jj + 1)).sum := by
            simp only [List.map_cons, List.take_succ_cons, List.sum_cons]
            omega
          rw [heqn]
          exact hprev

/-- Claim C6: on a non-empty score distribution, `calculateMedian`
computes the total count, walks the buckets in order accumulating a
running count, and returns the `avg_rating_in_bucket` of the first
bucket whose running count reaches `total/2` (every earlier running
count is strictly below the midpoint); the empty distribution
yields 2.5; on the example buckets of the spec the result is 2. -/
theorem calculateMedianBucketWalk :
    (∀ (b : ScoreBucket) (l : List ScoreBucket),
      ∃ i : Fin (b :: l).length,
        calculateMedian (b :: l) = ((b :: l).get i).avg_rating_in_bucket ∧
        ((((b :: l).map (fun x => x.candidate_count)).sum : ℕ) : ℚ) / 2 ≤
          (((((b :: l).map (fun x => x.candidate_count)).take (i.1 + 1)).sum : ℕ) : ℚ) ∧
        ∀ j : Fin (b :: l).length, j.1 < i.1 →
          (((((b :: l).map (fun x => x.candidate_count)).take (j.1 + 1)).sum : ℕ) : ℚ) <
            ((((b :: l).map (fun x => x.candidate_count)).sum : ℕ) : ℚ) / 2) ∧
    calculateMedian [] = 2.5 ∧
    calculateMedian [⟨"1-2", 3, 25, 1⟩, ⟨"2-3", 8, 66, 2⟩, ⟨"3-4", 1, 9, 3⟩] = 2 := by
  refine ⟨?_, rfl, ?_⟩
  · intro b l
    have htot : ((((b :: l).map (fun x => x.candidate_count)).sum : ℕ) : ℚ) / 2 ≤
        ((0 + ((b :: l).map (fun x => x.candidate_count)).sum : ℕ) : ℚ) := by
      rw [Nat.zero_add]
      exact half_le_self (by positivity)
    obtain ⟨i, h1, h2, h3⟩ := medianGo_reaches
      (((((b :: l).map (fun x => x.candidate_count)).sum : ℕ) : ℚ) / 2)
      (b :: l) (List.cons_ne_nil b l) 0 htot
    refine ⟨i, ?_, ?_, ?_⟩
    · have hunfold : calculateMedian (b :: l) =
          calculateMedianGo (((((b :: l).map (fun b => b.candidate_count)).sum : ℕ) : ℚ) / 2) 0
            (b :: l) := by simp only [calculateMedian]
      rw [hunfold]
      exact h1
    · simpa using h2
    · intro j hj
      simpa using h3 j hj
  · norm_num [calculateMedian, calculateMedianGo]

/-- Modelled from the spec: the "true median" of an ascending sequence —
the average of the two middle elements for even length, the middle
element for odd length. -/
def trueMedian (sorted : List ℚ) : ℚ :=
  if sorted.length % 2 = 0 then
    (sorted.getD (sorted.length / 2 - 1) 0 + sorted.getD (sorted.length / 2) 0) / 2
  else sorted.getD (sorted.length / 2) 0

/-- The summary helper returns the true median of any ascending
arrangement of the expanded multiset, together with the total count. -/
theorem scoreSummaryMedianSpec (sd : List ScoreBucket) (l : List ℚ)
    (hperm : List.Perm l (expandScores sd)) (hsorted : l.Sorted (· ≤ ·)) (hne : l ≠ []) :
    (calculateScoreSummary sd).2 = trueMedian l ∧
    (calculateScoreSummary sd).1 = (sd.map (fun b => b.candidate_count)).sum := by
  have hexp : expandScores sd ≠ [] := by
    intro h
    exact hne (List.Perm.eq_nil (h ▸ hperm))
  have hsdne : sd ≠ [] := by
    intro h
    subst h
    exact hexp rfl
  have hisEmpty : sd.isEmpty = false := by
    cases sd with
    | nil => exact absurd rfl hsdne
    | cons a as => rfl
  have hps : List.Perm ((expandScores sd).insertionSort (· ≤ ·)) (expandScores sd) :=
    List.perm_insertionSort _ _
  have hss : ((expandScores sd).insertionSort (· ≤ ·)).Sorted (· ≤ ·) :=
    List.sorted_insertionSort _ _
  have hls : l = (expandScores sd).insertionSort (· ≤ ·) :=
    List.eq_of_perm_of_sorted (hperm.trans hps.symm) hsorted hss
  have hpos : 0 < ((expandScores sd).insertionSort (· ≤ ·)).length := by
    rw [List.length_insertionSort]
    exact List.length_pos.mpr hexp
  have hcode : calculateScoreSummary sd =
      ((sd.map (fun b => b.candidate_count)).sum,
        if 0 < ((expandScores sd).insertionSort (· ≤ ·)).length
        then trueMedian ((expandScores sd).insertionSort (· ≤ ·)) else 0) := by
    simp only [calculateScoreSummary, hisEmpty, Bool.false_eq_true, if_false, trueMedian,
      gt_iff_lt]
  subst hls
  rw [hcode]
  exact ⟨by rw [if_pos hpos], rfl⟩

/-- Claim C7: `calculateScoreSummary` expands each bucket into
`candidate_count` copies of its `avg_rating_in_bucket`, sorts the
expanded multiset ascending, and returns its true median (together with
the total count): for every ascending sequence `l` equal as a multiset
to the expansion (nonempty), the returned median is `trueMedian l`; on
the example buckets of the spec (expansion `[1,1,1,2,2,2,2,2,2,2,2,3]`) the
result is total 12, median 2. -/
theorem calculateScoreSummaryTrueMedian :
    (∀ (sd : List ScoreBucket) (l : List ℚ),
      List.Perm l (expandScores sd) → l.Sorted (· ≤ ·) → l ≠ [] →
      (calculateScoreSummary sd).2 = trueMedian l ∧
      (calculateScoreSummary sd).1 = (sd.map (fun b => b.candidate_count)).sum) ∧
    calculateScoreSummary [⟨"1-2", 3, 25, 1⟩, ⟨"2-3", 8, 66, 2⟩, ⟨"3-4", 1, 9, 3⟩] = (12, 2) := by
  refine ⟨scoreSummaryMedianSpec, ?_⟩
  have hexp : expandScores [⟨"1-2", 3, 25, 1⟩, ⟨"2-3", 8, 66, 2⟩, ⟨"3-4", 1, 9, 3⟩] =
      [1, 1, 1, 2, 2, 2, 2, 2, 2, 2, 2, 3] := by decide
  obtain ⟨hmed, htot⟩ := scoreSummaryMedianSpec
    [⟨"1-2", 3, 25, 1⟩, ⟨"2-3", 8, 66, 2⟩, ⟨"3-4", 1, 9, 3⟩]
    [1, 1, 1, 2, 2, 2, 2, 2, 2, 2, 2, 3]
    (hexp ▸ List.Perm.refl _)
    (by norm_num [List.sorted_cons])
    (by simp)
  have h2 : trueMedian [1, 1, 1, 2, 2, 2, 2, 2, 2, 2, 2, 3] = 2 := by
    norm_num [trueMedian, List.getD]
  have h1 : (([⟨"1-2", 3, 25, 1⟩, ⟨"2-3", 8, 66, 2⟩,
      ⟨"3-4", 1, 9, 3⟩] : List ScoreBucket).map (fun b => b.candidate_count)).sum = 12 := by
    decide
  rw [h2] at hmed
  rw [h1] at htot
  exact Prod.ext htot hmed

theorem calculateScoreSummaryTrueMedian_witness :
    (calculateScoreSummary [⟨"1-2", 3, 25, 1⟩, ⟨"2-3", 8, 66, 2⟩, ⟨"3-4", 1, 9, 3⟩]).2 =
      trueMedian [1, 1, 1, 2, 2, 2, 2, 2, 2, 2, 2, 3] :=
  (calculateScoreSummaryTrueMedian.1 [⟨"1-2", 3, 25, 1⟩, ⟨"2-3", 8, 66, 2⟩, ⟨"3-4", 1, 9, 3⟩]
    [1, 1, 1, 2, 2, 2, 2, 2, 2, 2, 2, 3]
    (by decide) (by norm_num [List.sorted_cons]) (by simp)).1

/-- Claim C8: mock-flag resolution is first-resolved-wins and cached:
the build-time variable beats the process variable and the runtime
override (in particular a build-time `"true"` wins over a contrary
override); every outcome that yields a value caches it, and a cached
value short-circuits every later resolution with no state change and no
server fetch — including after a server-endpoint resolution completes;
and callers arriving while a server resolution is in flight join the
single pending operation instead of issuing their own fetch. -/
theorem mockFlagResolution :
    (∀ (env : MockEnv) (st : MockState) (v : Json),
      st.mockFlagCached = none → st.mockFlagPending = false →
      env.importMetaEnv = some v →
      (resolveMockFlag env st).1 = ResolveOutcome.value (readBool v) ∧
      (resolveMockFlag env st).2.2 = false) ∧
    (∀ (procv winv : Option Json) (serverb : Option Json),
      (resolveMockFlag ⟨some (Json.str "true"), procv, serverb, true⟩
          ⟨none, false, winv⟩).1 = ResolveOutcome.value true) ∧
    (∀ (env : MockEnv) (st : MockState) (b : Bool),
      (resolveMockFlag env st).1 = ResolveOutcome.value b →
      (resolveMockFlag env st).2.1.mockFlagCached = some b) ∧
    (∀ (env : MockEnv) (st : MockState) (b : Bool), st.mockFlagCached = some b →
      resolveMockFlag env st = (ResolveOutcome.value b, st, false)) ∧
    (∀ (env env2 : MockEnv) (st : MockState),
      (resolveMockFlag env2 (completeServerResolve env st).2).1 =
        ResolveOutcome.value (serverFlag env) ∧
      (resolveMockFlag env2 (completeServerResolve env st).2).2.2 = false) ∧
    (∀ (env : MockEnv) (st : MockState),
      st.mockFlagCached = none → st.mockFlagPending = true →
      resolveMockFlag env st = (ResolveOutcome.joinedPending, st, false)) := by
  refine ⟨?_, ?_, ?_, ?_, ?_, ?_⟩
  · intro env st v hc hp hv
    simp [resolveMockFlag, immediateMockFlag, hc, hp, hv]
  · intro procv winv serverb
    have hrb : readBool (Json.str "true") = true := by decide
    simp [resolveMockFlag, immediateMockFlag, hrb]
  · intro env st b
    cases hc : st.mockFlagCached with
    | some b0 => simp [resolveMockFlag, hc]
    | none =>
      cases hp : st.mockFlagPending with
      | true => simp [resolveMockFlag, hc, hp]
      | false =>
        cases him : immediateMockFlag env st with
        | some sync => simp [resolveMockFlag, hc, hp, him]
        | none =>
          cases hcl : env.isClient with
          | false => simp [resolveMockFlag, hc, hp, him, hcl]
          | true => simp [resolveMockFlag, hc, hp, him, hcl]
  · intro env st b hc
    simp [resolveMockFlag, hc]
  · intro env env2 st
    simp [resolveMockFlag, completeServerResolve]
  · intro env st hc hp
    simp [resolveMockFlag, hc, hp]

theorem mockFlagResolution_witness :
    (resolveMockFlag ⟨some (Json.str "true"), some (Json.str "false"), none, true⟩
        ⟨none, false, some (Json.bool false)⟩).1 = ResolveOutcome.value true :=
  mockFlagResolution.2.1 (some (Json.str "false")) (some (Json.bool false)) none

theorem noJobIdYieldsNullNoFetch_witness :
    (runLoad none false exampleOkResponses (initialState none)).1.analytics = none :=
  (noJobIdYieldsNullNoFetch false exampleOkResponses (initialState none)).1

theorem unguardedLastWriteWins_witness :
    runUpdates (initialState (some "j1"))
        ([Update.startLoading] ++ [Update.success emptyAnalytics (Json.arr []) (Json.arr [])]) =
      { analytics := some emptyAnalytics, proctoringEvents := Json.arr [],
        sectionPerformance := Json.arr [], isLoading := false, hasError := false,
        analyticsError := none } :=
  unguardedLastWriteWins (initialState (some "j1")) [Update.startLoading] emptyAnalytics
    (Json.arr []) (Json.arr [])

theorem calculateModeFirstMax_witness :
    calculateMode [⟨"1-2", 3, 25, 1⟩, ⟨"2-3", 8, 66, 2⟩, ⟨"3-4", 1, 9, 3⟩] = 2 :=
  calculateModeFirstMax.2.2

theorem calculateMedianBucketWalk_witness :
    calculateMedian [⟨"1-2", 3, 25, 1⟩, ⟨"2-3", 8, 66, 2⟩, ⟨"3-4", 1, 9, 3⟩] = 2 :=
  calculateMedianBucketWalk.2.2
